import Mathlib

/-
Verification of the dent_bot scheduling/booking engine against its design
specification.  The defining Python modules are shallowly embedded below:

* `DentBot.Slots`  –  src/dentbot/services/slot_service.py
* `DentBot.Appts`  –  src/dentbot/adapters/sqlite_adapter.py,
                      src/dentbot/services/approval_service.py,
                      src/dentbot/tools/appointment_tools.py
* `DentBot.Rooms`  –  src/dent_bot/tools.py, src/dent_bot/adapters/sqlite_adapter.py

Times of day are represented as minutes since midnight (the service itself
converts every HH:MM string to minutes with `_time_to_minutes(_parse_time(s))`
before doing arithmetic, and this conversion is a bijection between valid
HH:MM strings and minutes in [0, 1440)); calendar dates are represented as
year/month/day triples ordered lexicographically (the ordering used by Python
once `datetime.strptime(s, "%Y-%m-%d")` has parsed the string).
-/

namespace DentBot.Slots

/-- Mirror of the `Dentist` dataclass (models/dentist.py): working calendar of
one practitioner.  The four time-of-day fields hold the parsed minute value of
the corresponding HH:MM string field of the Python dataclass. -/
structure Dentist where
  working_days : List String
  start_time : Nat
  end_time : Nat
  break_start : Nat
  break_end : Nat
  slot_duration : Nat
deriving DecidableEq

/-- Mirror of `Dentist.works_on_day`. -/
def works_on_day (d : Dentist) (day_name : String) : Bool :=
  d.working_days.contains day_name

/-- Fuel-indexed transcription of the `while current_minute < end_min` loop of
`SlotService.generate_time_slots`.  One unit of fuel per loop iteration; every
iteration of the Python loop either advances `current` by `duration` or jumps
it to `break_end`, so for the well-formed inputs the claims quantify over
(`duration > 0`, `break_start ≤ break_end`) the loop runs at most
`end_min + 1` iterations and the fuel passed by `generate_time_slots` below is
never exhausted. -/
def slotLoop (end_min break_start_min break_end_min duration : Nat) :
    Nat → Nat → List Nat
  | 0, _ => []
  | fuel + 1, current_minute =>
    if current_minute < end_min then
      -- slot_end = current_minute + duration
      if break_start_min ≤ current_minute ∧ current_minute < break_end_min then
        slotLoop end_min break_start_min break_end_min duration fuel break_end_min
      else if current_minute < break_start_min ∧
          current_minute + duration > break_start_min then
        slotLoop end_min break_start_min break_end_min duration fuel break_end_min
      else if current_minute + duration > end_min then
        []
      else
        current_minute ::
          slotLoop end_min break_start_min break_end_min duration fuel
            (current_minute + duration)
    else []

/-- Mirror of `SlotService.generate_time_slots` (slot start times in minutes;
the Python function renders each with `_minutes_to_time_str` on the way out). -/
def generate_time_slots (d : Dentist) : List Nat :=
  slotLoop d.end_time d.break_start d.break_end d.slot_duration
    (d.end_time + 1) d.start_time

/-- The same day loop with the two break tests removed: the slot sequence of
an identical dentist that has no break window at all ("slots run from dayStart
stepping by slotDurationMinutes until dayEnd").  Used to state claim C8. -/
def noBreakLoop (end_min duration : Nat) : Nat → Nat → List Nat
  | 0, _ => []
  | fuel + 1, current_minute =>
    if current_minute < end_min then
      if current_minute + duration > end_min then []
      else current_minute :: noBreakLoop end_min duration fuel (current_minute + duration)
    else []

/-- Slot sequence of the break-free schedule for dentist `d`. -/
def no_break_slots (d : Dentist) : List Nat :=
  noBreakLoop d.end_time d.slot_duration (d.end_time + 1) d.start_time

/-- One row of the data `get_available_slots` reads for each existing booking:
its `time_slot` (start, minutes) and its `duration_minutes`. -/
structure BookedSlot where
  time_slot : Nat
  duration_minutes : Nat
deriving DecidableEq

/-- `SlotService.buffer_minutes` (set in `SlotService.__init__`). -/
def buffer_minutes : Nat := 15

/-- Transcription of the inner `for booking in booked_data` loop of
`get_available_slots`, including its early `break` on the first conflict. -/
def isBusyLoop (s_start s_end : Nat) : List BookedSlot → Bool
  | [] => false
  | booking :: rest =>
    -- b_end = b_start + duration_minutes + buffer_minutes
    if s_start < booking.time_slot + booking.duration_minutes + buffer_minutes ∧
        s_end > booking.time_slot then
      true
    else isBusyLoop s_start s_end rest

/-- Transcription of the outer `for slot_start_str in all_possible_slots` loop
of `get_available_slots`, which appends the slots that are not busy. -/
def availLoop (duration : Nat) (booked_data : List BookedSlot) :
    List Nat → List Nat
  | [] => []
  | s_start :: rest =>
    if isBusyLoop s_start (s_start + duration) booked_data then
      availLoop duration booked_data rest
    else
      s_start :: availLoop duration booked_data rest

/-- Mirror of `SlotService.get_available_slots`.  The dentist row itself and
the booked rows for (date, dentist) are passed in directly, standing for the
`_get_dentist_info` and `adapter.get_booked_slots` reads; `day_of_week` stands
for `datetime.strptime(date, "%Y-%m-%d").strftime("%A")`. -/
def get_available_slots (d : Dentist) (day_of_week : String)
    (booked_data : List BookedSlot) : List Nat :=
  if ¬ works_on_day d day_of_week then []
  else availLoop d.slot_duration booked_data (generate_time_slots d)

/-- The busy predicate exactly as claim C1 words it: candidate `[s1, s1+d1)`
is busy against existing booking `b` iff
`s1 < s2 + d2 + buffer ∧ s2 < s1 + d1`. -/
def busyAgainst (s1 d1 : Nat) (b : BookedSlot) : Prop :=
  s1 < b.time_slot + b.duration_minutes + buffer_minutes ∧
    b.time_slot < s1 + d1

instance (s1 d1 : Nat) (b : BookedSlot) : Decidable (busyAgainst s1 d1 b) :=
  inferInstanceAs (Decidable (_ ∧ _))

theorem isBusyLoop_eq_any (s_start duration : Nat) (booked : List BookedSlot) :
    isBusyLoop s_start (s_start + duration) booked =
      booked.any (fun b => decide (busyAgainst s_start duration b)) := by
  induction booked with
  | nil => rfl
  | cons b rest ih =>
    by_cases h : busyAgainst s_start duration b
    · simp only [isBusyLoop]
      rw [if_pos ⟨h.1, h.2⟩]
      simp [List.any_cons, h]
    · simp only [isBusyLoop]
      rw [if_neg (fun hc => h ⟨hc.1, hc.2⟩)]
      simp [List.any_cons, ih, h]

theorem availLoop_eq_filter (duration : Nat) (booked : List BookedSlot)
    (slots : List Nat) :
    availLoop duration booked slots =
      slots.filter
        (fun s => ! booked.any (fun b => decide (busyAgainst s duration b))) := by
  induction slots with
  | nil => rfl
  | cons s rest ih =>
    simp only [availLoop, isBusyLoop_eq_any, List.filter_cons, ih]
    by_cases h : booked.any (fun b => decide (busyAgainst s duration b)) = true
    · simp [h]
    · simp [h]

/-- Mirror of `_minutes_to_time_str` (slot_service.py): renders minutes since
midnight as "HH:MM" with zero padding, hours reduced mod 24. -/
def minutes_to_time_str (minutes : Nat) : String :=
  (if (minutes / 60) % 24 < 10 then "0" else "") ++ toString ((minutes / 60) % 24)
    ++ ":" ++ (if minutes % 60 < 10 then "0" else "") ++ toString (minutes % 60)

/-- Soundness of the day loop: every emitted slot fits before `end_min` and
does not intersect the break window `[break_start, break_end)`. -/
theorem slotLoop_sound (end_min bs be dur : Nat) :
    ∀ fuel current t, t ∈ slotLoop end_min bs be dur fuel current →
      t + dur ≤ end_min ∧ ¬ (t < be ∧ bs < t + dur) := by
  intro fuel
  induction fuel with
  | zero => intro current t h; simp [slotLoop] at h
  | succ n ih =>
    intro current t h
    simp only [slotLoop] at h
    by_cases hc : current < end_min
    · rw [if_pos hc] at h
      by_cases hb1 : bs ≤ current ∧ current < be
      · rw [if_pos hb1] at h; exact ih _ _ h
      · rw [if_neg hb1] at h
        by_cases hb2 : current < bs ∧ current + dur > bs
        · rw [if_pos hb2] at h; exact ih _ _ h
        · rw [if_neg hb2] at h
          by_cases hend : current + dur > end_min
          · rw [if_pos hend] at h; simp at h
          · rw [if_neg hend] at h
            rcases List.mem_cons.mp h with rfl | hmem
            · refine ⟨le_of_not_lt hend, ?_⟩
              rintro ⟨h1, h2⟩
              rcases lt_or_ge t bs with hlt | hge
              · exact hb2 ⟨hlt, h2⟩
              · exact hb1 ⟨hge, h1⟩
            · exact ih _ _ hmem
    · rw [if_neg hc] at h; simp at h

/-- With a degenerate break window (`break_start = break_end = bs`) and the
cursor aligned to the slot grid relative to `bs`, the day loop coincides with
the break-free loop. -/
theorem slotLoop_degenerate (end_min bs dur : Nat) :
    ∀ fuel current, (current ≤ bs → dur ∣ (bs - current)) →
      slotLoop end_min bs bs dur fuel current =
        noBreakLoop end_min dur fuel current := by
  intro fuel
  induction fuel with
  | zero => intro current _; rfl
  | succ n ih =>
    intro current hal
    simp only [slotLoop, noBreakLoop]
    by_cases hc : current < end_min
    · rw [if_pos hc, if_pos hc]
      have hb1 : ¬ (bs ≤ current ∧ current < bs) :=
        fun h => absurd (lt_of_le_of_lt h.1 h.2) (lt_irrefl _)
      rw [if_neg hb1]
      by_cases hb2 : current < bs ∧ current + dur > bs
      · exfalso
        have hdvd := hal (le_of_lt hb2.1)
        have hpos : 0 < bs - current := Nat.sub_pos_of_lt hb2.1
        have hge : dur ≤ bs - current := Nat.le_of_dvd hpos hdvd
        omega
      · rw [if_neg hb2]
        by_cases hend : current + dur > end_min
        · rw [if_pos hend, if_pos hend]
        · rw [if_neg hend, if_neg hend]
          congr 1
          apply ih
          intro hle
          have hcur : current ≤ bs := le_trans (Nat.le_add_right _ _) hle
          have heq : bs - (current + dur) = (bs - current) - dur := by omega
          rw [heq]
          exact Nat.dvd_sub' (hal hcur) dvd_rfl
    · rw [if_neg hc, if_neg hc]

/-- Concrete resource of the spec scenario: works Mon-Fri, 09:00-17:00,
break 12:00-13:00, 30-minute slots. -/
def monDentist : Dentist :=
  ⟨["Monday", "Tuesday", "Wednesday", "Thursday", "Friday"],
    540, 1020, 720, 780, 30⟩

/-- Existing approved booking at 10:00 for 30 minutes (spec scenario). -/
def exBooked : List BookedSlot := [⟨600, 30⟩]

def mondayName : String := "Monday"

def saturdayName : String := "Saturday"

/-- Degenerate-break dentist whose break point 12:00 is aligned with the
slot grid ((720-540) divisible by 30). -/
def alignedDentist : Dentist := ⟨["Monday"], 540, 780, 720, 720, 30⟩

/-- Degenerate-break dentist starting 09:10: the candidate 11:40 straddles
the degenerate break point 12:00. -/
def misalignedDentist : Dentist := ⟨["Monday"], 550, 780, 720, 720, 30⟩

/-- C1: on a working day, `get_available_slots` equals `generate_time_slots`
filtered to the candidates that are not busy, where a candidate `[s1, s1+d1)`
is busy against an existing booking `[s2, s2+d2)` iff
`s1 < s2 + d2 + buffer ∧ s2 < s1 + d1`; moreover a candidate starting exactly
at `s2 + d2 + buffer` is never busy against that booking. -/
theorem C1_available_slots_filter (d : Dentist) (day : String)
    (booked : List BookedSlot) (hw : works_on_day d day = true) :
    get_available_slots d day booked =
      (generate_time_slots d).filter
        (fun s => ! booked.any (fun b => decide (busyAgainst s d.slot_duration b))) ∧
    ∀ (b : BookedSlot) (d1 : Nat),
      ¬ busyAgainst (b.time_slot + b.duration_minutes + buffer_minutes) d1 b := by
  constructor
  · simp [get_available_slots, hw, availLoop_eq_filter]
  · intro b d1 hbusy
    exact absurd hbusy.1 (lt_irrefl _)

theorem C1_available_slots_filter_witness :
    works_on_day monDentist mondayName = true ∧
    get_available_slots monDentist mondayName exBooked =
      (generate_time_slots monDentist).filter
        (fun s => ! exBooked.any
          (fun b => decide (busyAgainst s monDentist.slot_duration b))) :=
  ⟨by decide, (C1_available_slots_filter monDentist mondayName exBooked (by decide)).1⟩

/-- C2 (amended): if the weekday is not a working day the availability result
is empty; every generated slot `[t, t+dur)` fits before `end_time` and does
not intersect `[break_start, break_end)`; and on the Mon-Fri 09:00-17:00
resource with a 12:00-13:00 break and 30-minute slots the generated sequence
is 09:00 ... 11:30 then 13:00 ... 16:30, which is 14 slots (not 16 as the
spec's count says). -/
theorem C2_generate_slots_spec :
    (∀ (d : Dentist) (day : String) (booked : List BookedSlot),
        works_on_day d day = false → get_available_slots d day booked = []) ∧
    (∀ (d : Dentist), ∀ t ∈ generate_time_slots d,
        t + d.slot_duration ≤ d.end_time ∧
          ¬ (t < d.break_end ∧ d.break_start < t + d.slot_duration)) ∧
    generate_time_slots monDentist =
      [540, 570, 600, 630, 660, 690, 780, 810, 840, 870, 900, 930, 960, 990] ∧
    (generate_time_slots monDentist).map minutes_to_time_str =
      ["09:00", "09:30", "10:00", "10:30", "11:00", "11:30",
       "13:00", "13:30", "14:00", "14:30", "15:00", "15:30", "16:00", "16:30"] ∧
    (generate_time_slots monDentist).length = 14 := by
  refine ⟨?_, ?_, by decide, ?_, by decide⟩
  · intro d day booked hw
    simp [get_available_slots, hw]
  · intro d t ht
    exact slotLoop_sound d.end_time d.break_start d.break_end d.slot_duration
      _ _ t ht
  · decide

theorem C2_generate_slots_spec_witness :
    works_on_day monDentist saturdayName = false ∧
    get_available_slots monDentist saturdayName exBooked = [] :=
  ⟨by decide, C2_generate_slots_spec.1 monDentist saturdayName exBooked (by decide)⟩

/-- C2 counterexample: on the spec's own Monday scenario the generator emits
14 slots, not 16 as the claim states. -/
theorem C2_counterexample_slot_count :
    (generate_time_slots monDentist).length = 14 ∧
      (generate_time_slots monDentist).length ≠ 16 := by
  decide

/-- C8 (amended): with a degenerate break window `break_start = break_end`
whose point is aligned to the slot grid (slot_duration divides
`break_start - start_time`), the generated slots equal the break-free
schedule.  (Without the alignment hypothesis this fails: a candidate strictly
straddling the degenerate break point is still skipped, see the
counterexample.) -/
theorem C8_degenerate_break_aligned (d : Dentist)
    (hb : d.break_start = d.break_end)
    (hal : d.start_time ≤ d.break_start →
      d.slot_duration ∣ (d.break_start - d.start_time)) :
    generate_time_slots d = no_break_slots d := by
  unfold generate_time_slots no_break_slots
  rw [← hb]
  exact slotLoop_degenerate d.end_time d.break_start d.slot_duration _ _ hal

theorem C8_degenerate_break_aligned_witness :
    alignedDentist.break_start = alignedDentist.break_end ∧
    generate_time_slots alignedDentist = no_break_slots alignedDentist :=
  ⟨rfl, C8_degenerate_break_aligned alignedDentist rfl (fun _ => by decide)⟩

/-- C8 counterexample: a dentist with a degenerate break window 12:00-12:00
but day start 09:10 does NOT produce the same slots as the break-free
schedule: the candidate 11:40 straddles 12:00, is skipped, and the cursor
realigns to 12:00. -/
theorem C8_counterexample_misaligned :
    misalignedDentist.break_start = misalignedDentist.break_end ∧
    generate_time_slots misalignedDentist ≠ no_break_slots misalignedDentist := by
  decide

end DentBot.Slots

namespace DentBot.Appts

/-- Row of the `appointments` table (sqlite_adapter.py `init`), as read back
into the `Appointment` dataclass. -/
structure Appointment where
  id : Nat
  dentist_id : Nat
  patient_name : String
  patient_phone : String
  patient_email : String
  appointment_date : String
  time_slot : String
  treatment_type : String
  duration_minutes : Nat
  notes : Option String
  status : String
  patient_chat_id : Option Nat
deriving DecidableEq

def statusPending : String := "pending"

def statusApproved : String := "approved"

def statusRejected : String := "rejected"

def statusCancelled : String := "cancelled"

def statusCompleted : String := "completed"

/-- The appointments table, rows in insertion order. -/
abbrev Store := List Appointment

/-- Mirror of `_get_by_id('appointments', id)`:
`SELECT * FROM appointments WHERE id = ?`, first matching row or None. -/
def get_appointment : Store → Nat → Option Appointment
  | [], _ => none
  | a :: rest, i => if a.id == i then some a else get_appointment rest i

/-- Mirror of `update_appointment(id, {"status": st})`:
`UPDATE appointments SET status = ? WHERE id = ?` (updating only the status
never trips the UNIQUE(dentist_id, appointment_date, time_slot) constraint,
since those columns keep their values). -/
def update_status (store : Store) (i : Nat) (st : String) : Store :=
  store.map (fun a => if a.id == i then { a with status := st } else a)

/-- Mirror of adapter `approve_appointment`: update status to 'approved' and
return the re-read row (the adapter returns `self.get_appointment(id)` after
the UPDATE). -/
def adapter_approve (store : Store) (i : Nat) : Store × Option Appointment :=
  (update_status store i statusApproved,
    get_appointment (update_status store i statusApproved) i)

/-- Mirror of adapter `reject_appointment`: per its body (and docstring) it
updates the status to 'cancelled', not 'rejected'. -/
def adapter_reject (store : Store) (i : Nat) : Store × Option Appointment :=
  (update_status store i statusCancelled,
    get_appointment (update_status store i statusCancelled) i)

/-- Mirror of adapter `delete_appointment`:
`DELETE FROM appointments WHERE id = ?`, returning `rowcount > 0`. -/
def delete_appointment (store : Store) (i : Nat) : Store × Bool :=
  (store.filter (fun a => a.id != i), store.any (fun a => a.id == i))

/-- Outcome of an `ApprovalService` approve/reject call. -/
inductive ServiceResult where
  /-- `AppointmentError` "randevu bulunamadı" (booking id not found) -/
  | notFoundError
  /-- `DatabaseError` raised when the adapter's re-read comes back falsy -/
  | dbError
  /-- the updated appointment returned on success -/
  | ok (a : Appointment)
deriving DecidableEq

/-- Mirror of `ApprovalService.approve_appointment` (approval_service.py):
load the booking (NotFound if absent), then unconditionally set its status to
'approved' — there is no check that the booking is pending. -/
def approve_appointment (store : Store) (i : Nat) : Store × ServiceResult :=
  match get_appointment store i with
  | none => (store, ServiceResult.notFoundError)
  | some _ =>
    let r := adapter_approve store i
    match r.2 with
    | none => (r.1, ServiceResult.dbError)
    | some a => (r.1, ServiceResult.ok a)

/-- Mirror of `ApprovalService.reject_appointment`: load (NotFound if absent),
then unconditionally set status to 'cancelled'. -/
def reject_appointment (store : Store) (i : Nat) : Store × ServiceResult :=
  match get_appointment store i with
  | none => (store, ServiceResult.notFoundError)
  | some _ =>
    let r := adapter_reject store i
    match r.2 with
    | none => (r.1, ServiceResult.dbError)
    | some a => (r.1, ServiceResult.ok a)

/-- Outcome of the `cancel_appointment` tool (appointment_tools.py). -/
inductive CancelOutcome where
  | notFound
  /-- success message naming the reference code APT-id -/
  | cancelledOk (ref : Nat)
  /-- "Randevu iptal edilemedi" when the DELETE removed nothing -/
  | failed
deriving DecidableEq

/-- Mirror of the `cancel_appointment` tool: it looks the booking up and then
physically deletes the row (`adapter.delete_appointment`); it does not write a
'cancelled' status. -/
def cancel_appointment (store : Store) (i : Nat) : Store × CancelOutcome :=
  match get_appointment store i with
  | none => (store, CancelOutcome.notFound)
  | some a =>
    let r := delete_appointment store i
    if r.2 then (r.1, CancelOutcome.cancelledOk a.id) else (r.1, CancelOutcome.failed)

/-- Mirror of adapter `get_booked_slots`:
`SELECT time_slot FROM appointments WHERE appointment_date = ? AND
dentist_id = ? AND status IN ('pending', 'approved')`. -/
def get_booked_slots (store : Store) (date : String) (dentist_id : Nat) :
    List String :=
  (store.filter (fun a =>
      a.appointment_date == date && a.dentist_id == dentist_id &&
        (a.status == statusPending || a.status == statusApproved))).map
    (fun a => a.time_slot)

/-- Payload of `create_appointment_request` / `adapter.create_appointment`
(the inserted columns except `id` and `status`). -/
structure CreateData where
  dentist_id : Nat
  patient_name : String
  patient_phone : String
  patient_email : String
  appointment_date : String
  time_slot : String
  treatment_type : String
  duration_minutes : Nat
  notes : Option String
  patient_chat_id : Option Nat
deriving DecidableEq

/-- The column triple guarded by
`UNIQUE(dentist_id, appointment_date, time_slot) ON CONFLICT FAIL`. -/
def sameSlotKey (a : Appointment) (dentist_id : Nat) (date slot : String) : Bool :=
  a.dentist_id == dentist_id && a.appointment_date == date && a.time_slot == slot

/-- AUTOINCREMENT id for the next inserted row. -/
def next_id (store : Store) : Nat :=
  (store.map (fun a => a.id)).foldr max 0 + 1

/-- Result of the raw `INSERT INTO appointments ...` executed by sqlite. -/
inductive SqliteResult where
  /-- `sqlite3.IntegrityError` ('UNIQUE constraint failed'), the raw storage
  exception raised when a row with the same (dentist_id, appointment_date,
  time_slot) already exists — regardless of that row's status -/
  | integrityError
  | inserted (store2 : Store) (a : Appointment)
deriving DecidableEq

/-- The raw sqlite INSERT under the table's uniqueness constraint. -/
def sqlite_insert (store : Store) (data : CreateData) (st : String) :
    SqliteResult :=
  if store.any (fun a =>
      sameSlotKey a data.dentist_id data.appointment_date data.time_slot) then
    SqliteResult.integrityError
  else
    SqliteResult.inserted
      (store ++ [⟨next_id store, data.dentist_id, data.patient_name,
        data.patient_phone, data.patient_email, data.appointment_date,
        data.time_slot, data.treatment_type, data.duration_minutes,
        data.notes, st, data.patient_chat_id⟩])
      ⟨next_id store, data.dentist_id, data.patient_name, data.patient_phone,
        data.patient_email, data.appointment_date, data.time_slot,
        data.treatment_type, data.duration_minutes, data.notes, st,
        data.patient_chat_id⟩

/-- Result of `adapter.create_appointment`, which catches
`sqlite3.IntegrityError` and re-raises it as a `DatabaseError` carrying the
conflict message ("Randevu çakışması: ...") when the text names the UNIQUE
constraint — the raw sqlite exception never escapes the adapter. -/
inductive AdapterCreate where
  /-- `DatabaseError` whose message contains "çakışması" -/
  | databaseConflictError
  | created (store2 : Store) (a : Appointment)
deriving DecidableEq

/-- Mirror of `adapter.create_appointment`. -/
def create_appointment (store : Store) (data : CreateData) (st : String) :
    AdapterCreate :=
  match sqlite_insert store data st with
  | SqliteResult.integrityError => AdapterCreate.databaseConflictError
  | SqliteResult.inserted s a => AdapterCreate.created s a

/-- Mirror of `ApprovalService.create_pending_appointment`: force the status
to 'pending' and insert (a `DatabaseError` from the adapter is re-raised). -/
def create_pending_appointment (store : Store) (data : CreateData) :
    AdapterCreate :=
  create_appointment store data statusPending

/-- Mirror of `_validate_phone`: at least 10 digit characters, every other
character ignored. -/
def validate_phone (phone : String) : Bool :=
  decide (10 ≤ (phone.toList.filter (fun c => c.isDigit)).length)

/-- Mirror of `_validate_email`: `"@" in email and "." in email` — mere
containment of both characters, anywhere in the string. -/
def validate_email (email : String) : Bool :=
  email.toList.contains '@' && email.toList.contains '.'

/-- Mirror of `_validate_date_format`, i.e. acceptance by
`datetime.strptime(date_str, "%Y-%m-%d")`: three dash-separated digit groups
forming a valid calendar date. -/
def is_leap (y : Nat) : Bool := (y % 4 == 0 && y % 100 != 0) || y % 400 == 0

def days_in_month (y m : Nat) : Nat :=
  if m == 2 then (if is_leap y then 29 else 28)
  else if m == 4 || m == 6 || m == 9 || m == 11 then 30
  else 31

def digit_chars (s : List Char) : Bool :=
  decide (0 < s.length) && s.all (fun c => c.isDigit)

def chars_to_nat (s : List Char) : Nat :=
  s.foldl (fun n c => n * 10 + (c.toNat - 48)) 0

def split_dash (s : List Char) : List (List Char) :=
  s.foldr
    (fun c acc =>
      if c == '-' then [] :: acc else (c :: acc.headD []) :: acc.tail)
    [[]]

def validate_date_format (date_str : String) : Bool :=
  match split_dash date_str.toList with
  | [y, m, d] =>
    digit_chars y && digit_chars m && digit_chars d &&
      decide (1 ≤ chars_to_nat m) && decide (chars_to_nat m ≤ 12) &&
      decide (1 ≤ chars_to_nat d) &&
      decide (chars_to_nat d ≤ days_in_month (chars_to_nat y) (chars_to_nat m))
  | _ => false

/-- The distinct messages the `create_appointment_request` tool returns. -/
inductive ToolReply where
  /-- "Randevu oluşturma hatası: İletişim bilgisi eksik" (missing chat id) -/
  | missingChatId
  /-- "Geçersiz telefon numarası" -/
  | invalidPhone
  /-- "Geçersiz e-posta adresi" -/
  | invalidEmail
  /-- "Geçersiz tarih formatı" -/
  | invalidDate
  /-- "Randevu talebiniz başarıyla oluşturuldu! Referans Kodu: APT-…" -/
  | successCreated (ref : Nat)
  /-- "Randevu Çakışması: Seçtiğiniz tarih ve saatte …" — the ConflictError
  outcome, produced whenever the caught `DatabaseError` carries "çakışması" -/
  | conflictReply
deriving DecidableEq

/-- Mirror of the `create_appointment_request` tool (appointment_tools.py):
validations in source order, then `create_pending_appointment`; a
`DatabaseError` whose message contains "çakışması" becomes the conflict
reply.  (`if not patient_chat_id` is Python truthiness: `None` and `0` both
fail it.) -/
def create_appointment_request (store : Store) (data : CreateData) :
    Store × ToolReply :=
  if (data.patient_chat_id.getD 0) == 0 then (store, ToolReply.missingChatId)
  else if ¬ validate_phone data.patient_phone then (store, ToolReply.invalidPhone)
  else if ¬ validate_email data.patient_email then (store, ToolReply.invalidEmail)
  else if ¬ validate_date_format data.appointment_date then
    (store, ToolReply.invalidDate)
  else
    match create_pending_appointment store data with
    | AdapterCreate.databaseConflictError => (store, ToolReply.conflictReply)
    | AdapterCreate.created s2 a => (s2, ToolReply.successCreated a.id)

theorem get_update_status (store : Store) (i : Nat) (st : String) :
    get_appointment (update_status store i st) i =
      (get_appointment store i).map (fun a => { a with status := st }) := by
  induction store with
  | nil => rfl
  | cons a rest ih =>
    simp only [get_appointment, update_status, List.map_cons] at ih ⊢
    by_cases h : (a.id == i) = true
    · have h2 : ((({ a with status := st } : Appointment).id == i) = true) := h
      rw [if_pos h, if_pos h2, if_pos h]
      rfl
    · rw [if_neg h, if_neg h, if_neg h, ih]

theorem update_status_idem (store : Store) (i : Nat) (st : String) :
    update_status (update_status store i st) i st = update_status store i st := by
  induction store with
  | nil => rfl
  | cons a rest ih =>
    simp only [update_status, List.map_cons] at ih ⊢
    by_cases h : (a.id == i) = true
    · have h2 : ((({ a with status := st } : Appointment).id == i) = true) := h
      rw [if_pos h, if_pos h2, ih]
    · rw [if_neg h, if_neg h, ih]

theorem get_after_delete (store : Store) (i : Nat) :
    get_appointment (delete_appointment store i).1 i = none := by
  simp only [delete_appointment]
  induction store with
  | nil => rfl
  | cons a rest ih =>
    simp only [List.filter_cons]
    by_cases h : (a.id == i) = true
    · have hb : (a.id != i) = false := by simp [bne, h]
      rw [hb]
      simpa using ih
    · have hb : (a.id != i) = true := by simp [bne, h]
      rw [hb]
      simp only [if_true]
      simp only [get_appointment]
      rw [if_neg h]
      simpa using ih

theorem any_id_of_get (store : Store) (i : Nat) (a : Appointment)
    (hget : get_appointment store i = some a) :
    store.any (fun x => x.id == i) = true := by
  induction store with
  | nil => simp [get_appointment] at hget
  | cons b rest ih =>
    simp only [get_appointment] at hget
    by_cases h : (b.id == i) = true
    · simp [List.any_cons, h]
    · rw [if_neg h] at hget
      simp [List.any_cons, ih hget]

theorem approve_eq (store : Store) (i : Nat) (a : Appointment)
    (hget : get_appointment store i = some a) :
    approve_appointment store i =
      (update_status store i statusApproved,
        ServiceResult.ok { a with status := statusApproved }) := by
  unfold approve_appointment adapter_approve
  rw [hget, get_update_status, hget]
  rfl

theorem reject_eq (store : Store) (i : Nat) (a : Appointment)
    (hget : get_appointment store i = some a) :
    reject_appointment store i =
      (update_status store i statusCancelled,
        ServiceResult.ok { a with status := statusCancelled }) := by
  unfold reject_appointment adapter_reject
  rw [hget, get_update_status, hget]
  rfl

/-- Concrete bookings and stores used in witnesses and counterexamples. -/
def exApptPending : Appointment :=
  ⟨1, 1, "Ali Veli", "05551234567", "ali@example.com", "2025-12-01", "10:00",
    "Dolgu", 30, none, statusPending, some 5⟩

def exApptApproved : Appointment :=
  ⟨2, 1, "Ayse Kaya", "05559876543", "ayse@example.com", "2025-12-01", "11:00",
    "Kontrol", 30, none, statusApproved, some 6⟩

def exApptCancelled : Appointment :=
  ⟨3, 1, "Can Demir", "05550001122", "can@example.com", "2025-12-01", "14:00",
    "Dolgu", 30, none, statusCancelled, some 7⟩

def exStorePending : Store := [exApptPending]

def exStoreApproved : Store := [exApptApproved]

def exStoreCancelled : Store := [exApptCancelled]

/-- Create payload colliding with `exApptCancelled`'s (dentist, date, slot). -/
def exDataSameSlot : CreateData :=
  ⟨1, "Deniz Yilmaz", "+1 (555) 123-4567", "deniz@example.com", "2025-12-01",
    "14:00", "Dolgu", 30, none, some 9⟩

/-- Create payload colliding with `exApptPending`'s (dentist, date, slot). -/
def exDataPendingSlot : CreateData :=
  ⟨1, "Deniz Yilmaz", "+1 (555) 123-4567", "deniz@example.com", "2025-12-01",
    "10:00", "Dolgu", 30, none, some 9⟩

/-- Create payload with the spec scenario's too-short phone number. -/
def exDataBadPhone : CreateData :=
  ⟨1, "Deniz Yilmaz", "12345", "deniz@example.com", "2025-12-02", "10:00",
    "Dolgu", 30, none, some 9⟩

def phone12345 : String := "12345"

def phoneIntl : String := "+1 (555) 123-4567"

/-- An email address with a '.' before the '@' and none after it. -/
def emailDotBefore : String := "a.b@cd"

/-- C3 (amended): the approval service performs no state-machine check: for
any stored booking, whatever its current status, `approve` succeeds and
unconditionally writes 'approved', `reject` succeeds and unconditionally
writes 'cancelled', and calling `approve` a second time succeeds again with
the same result (no InvalidStateError exists; only a missing id fails). -/
theorem C3_approve_reject_unconditional (store : Store) (i : Nat)
    (a : Appointment) (hget : get_appointment store i = some a) :
    (approve_appointment store i).2 =
      ServiceResult.ok { a with status := statusApproved } ∧
    (reject_appointment store i).2 =
      ServiceResult.ok { a with status := statusCancelled } ∧
    approve_appointment (approve_appointment store i).1 i =
      approve_appointment store i := by
  have h1 := approve_eq store i a hget
  have hget2 : get_appointment (update_status store i statusApproved) i =
      some { a with status := statusApproved } := by
    rw [get_update_status, hget]; rfl
  have h2 := approve_eq _ i _ hget2
  refine ⟨by rw [h1], by rw [reject_eq store i a hget], ?_⟩
  have h3 : (approve_appointment store i).1 = update_status store i statusApproved := by
    rw [h1]
  rw [h3, h2, update_status_idem, h1]

theorem C3_approve_reject_unconditional_witness :
    get_appointment exStoreApproved 2 = some exApptApproved ∧
    (approve_appointment exStoreApproved 2).2 =
      ServiceResult.ok { exApptApproved with status := statusApproved } :=
  ⟨by decide,
    (C3_approve_reject_unconditional exStoreApproved 2 exApptApproved (by decide)).1⟩

/-- C3 counterexample: `approve` on a booking that is already 'approved' (so
not 'pending') succeeds again — it returns the booking, not any error — so
the claimed InvalidStateError failure does not happen. -/
theorem C3_counterexample_second_approve :
    (approve_appointment exStoreApproved 2).2 = ServiceResult.ok exApptApproved ∧
    (approve_appointment exStoreApproved 2).2 ≠ ServiceResult.notFoundError ∧
    (approve_appointment exStoreApproved 2).2 ≠ ServiceResult.dbError := by
  decide

/-- C4 (amended): for a stored booking, `approve` writes exactly 'approved'
in place (all other fields unchanged, row still retrievable); `reject` writes
'cancelled' — not 'rejected', which the code never assigns; and the
`cancel_appointment` tool physically deletes the row, which is no longer
retrievable afterwards. -/
theorem C4_lifecycle_storage (store : Store) (i : Nat) (a : Appointment)
    (hget : get_appointment store i = some a) :
    get_appointment (approve_appointment store i).1 i =
      some { a with status := statusApproved } ∧
    get_appointment (reject_appointment store i).1 i =
      some { a with status := statusCancelled } ∧
    (cancel_appointment store i).2 = CancelOutcome.cancelledOk a.id ∧
    get_appointment (cancel_appointment store i).1 i = none := by
  have hany := any_id_of_get store i a hget
  have hcancel : cancel_appointment store i =
      ((delete_appointment store i).1, CancelOutcome.cancelledOk a.id) := by
    unfold cancel_appointment
    rw [hget]
    simp [delete_appointment, hany]
  refine ⟨?_, ?_, ?_, ?_⟩
  · rw [approve_eq store i a hget, get_update_status, hget]; rfl
  · rw [reject_eq store i a hget, get_update_status, hget]; rfl
  · rw [hcancel]
  · rw [hcancel]
    exact get_after_delete store i

theorem C4_lifecycle_storage_witness :
    get_appointment exStorePending 1 = some exApptPending ∧
    (get_appointment (approve_appointment exStorePending 1).1 1 =
        some { exApptPending with status := statusApproved } ∧
      get_appointment (cancel_appointment exStorePending 1).1 1 = none) :=
  ⟨by decide,
    (C4_lifecycle_storage exStorePending 1 exApptPending (by decide)).1,
    (C4_lifecycle_storage exStorePending 1 exApptPending (by decide)).2.2.2⟩

/-- C4 counterexample: `reject` on a pending booking stores status
'cancelled', not 'rejected'; and after the `cancel_appointment` tool the
booking is gone from the store (physically deleted), not stored as
'cancelled'. -/
theorem C4_counterexample_reject_cancel :
    (reject_appointment exStorePending 1).2 =
      ServiceResult.ok { exApptPending with status := statusCancelled } ∧
    statusCancelled ≠ statusRejected ∧
    get_appointment (cancel_appointment exStorePending 1).1 1 = none := by
  decide

/-- C5 (amended): a booking whose status is neither 'pending' nor 'approved'
contributes nothing to the availability query (`get_booked_slots` filters on
status), but the storage uniqueness constraint consulted by create ignores
status entirely: a stored booking of any status at the same (resource, date,
slot) still makes the insert fail with the conflict error. -/
theorem C5_inactive_status_participation (store : Store) (b : Appointment)
    (date : String) (did : Nat) (data : CreateData)
    (hst : b.status ≠ statusPending ∧ b.status ≠ statusApproved)
    (hkey : data.dentist_id = b.dentist_id ∧
      data.appointment_date = b.appointment_date ∧
      data.time_slot = b.time_slot) :
    get_booked_slots (b :: store) date did = get_booked_slots store date did ∧
    create_appointment (b :: store) data statusPending =
      AdapterCreate.databaseConflictError := by
  constructor
  · unfold get_booked_slots
    rw [List.filter_cons]
    have h1 : (b.status == statusPending) = false := by
      simpa using hst.1
    have h2 : (b.status == statusApproved) = false := by
      simpa using hst.2
    simp [h1, h2]
  · have hany : (b :: store).any (fun a =>
        sameSlotKey a data.dentist_id data.appointment_date data.time_slot) =
          true := by
      simp [List.any_cons, sameSlotKey, hkey.1, hkey.2.1, hkey.2.2]
    simp [create_appointment, sqlite_insert, hany]

theorem C5_inactive_status_participation_witness :
    (exApptCancelled.status ≠ statusPending ∧
      exApptCancelled.status ≠ statusApproved) ∧
    get_booked_slots [exApptCancelled] ("2025-12-01") 1 =
      get_booked_slots [] ("2025-12-01") 1 ∧
    create_appointment [exApptCancelled] exDataSameSlot statusPending =
      AdapterCreate.databaseConflictError :=
  ⟨by decide,
    (C5_inactive_status_participation [] exApptCancelled ("2025-12-01") 1
      exDataSameSlot (by decide) (by decide)).1,
    (C5_inactive_status_participation [] exApptCancelled ("2025-12-01") 1
      exDataSameSlot (by decide) (by decide)).2⟩

/-- C5 counterexample: a 'cancelled' booking DOES block a create at the same
(resource, date, slot): the insert trips the status-blind uniqueness
constraint and the caller gets the conflict error, contradicting the claim
that cancelled bookings never block. -/
theorem C5_counterexample_cancelled_blocks_create :
    exApptCancelled.status = statusCancelled ∧
    create_appointment exStoreCancelled exDataSameSlot statusPending =
      AdapterCreate.databaseConflictError := by
  decide

/-- C6: when the insert hits the storage layer's uniqueness constraint, the
raw sqlite integrity failure is caught and surfaces to the caller as the
single conflict reply (the same ConflictError outcome the conflict check
produces for any conflict), never as a raw storage exception, and nothing is
persisted. -/
theorem C6_commit_conflict_translated (store : Store) (data : CreateData)
    (hchat : data.patient_chat_id.getD 0 ≠ 0)
    (hphone : validate_phone data.patient_phone = true)
    (hemail : validate_email data.patient_email = true)
    (hdate : validate_date_format data.appointment_date = true)
    (hdup : store.any (fun a =>
      sameSlotKey a data.dentist_id data.appointment_date data.time_slot) =
        true) :
    sqlite_insert store data statusPending = SqliteResult.integrityError ∧
    create_appointment_request store data = (store, ToolReply.conflictReply) := by
  have hins : sqlite_insert store data statusPending =
      SqliteResult.integrityError := by
    simp [sqlite_insert, hdup]
  refine ⟨hins, ?_⟩
  simp [create_appointment_request, hchat, hphone, hemail, hdate,
    create_pending_appointment, create_appointment, hins]

theorem C6_commit_conflict_translated_witness :
    (exStorePending.any (fun a => sameSlotKey a exDataPendingSlot.dentist_id
        exDataPendingSlot.appointment_date exDataPendingSlot.time_slot) =
      true) ∧
    sqlite_insert exStorePending exDataPendingSlot statusPending =
      SqliteResult.integrityError ∧
    create_appointment_request exStorePending exDataPendingSlot =
      (exStorePending, ToolReply.conflictReply) :=
  ⟨by decide,
    (C6_commit_conflict_translated exStorePending exDataPendingSlot (by decide)
      (by decide) (by decide) (by decide) (by decide)).1,
    (C6_commit_conflict_translated exStorePending exDataPendingSlot (by decide)
      (by decide) (by decide) (by decide) (by decide)).2⟩

/-- The email rule as claim C9 words it: the string contains an '@' and a '.'
somewhere after it. -/
def emailSpecOk (email : String) : Prop :=
  '@' ∈ email.toList ∧ '.' ∈ email.toList.dropWhile (fun c => c != '@')

instance (email : String) : Decidable (emailSpecOk email) :=
  inferInstanceAs (Decidable (_ ∧ _))

/-- C9 (amended): the phone rule is exactly "at least 10 digit characters,
everything else ignored" as claimed; the email rule is weaker than claimed:
it accepts any string containing '@' and containing '.' anywhere — the '.'
need not come after the '@'.  Instance: phone "12345" is rejected (the create
tool answers with the phone validation error and stores nothing) and
"+1 (555) 123-4567" passes. -/
theorem C9_contact_validation :
    (∀ phone : String, validate_phone phone = true ↔
      10 ≤ (phone.toList.filter (fun c => c.isDigit)).length) ∧
    (∀ email : String, validate_email email = true ↔
      ('@' ∈ email.toList ∧ '.' ∈ email.toList)) ∧
    validate_phone phone12345 = false ∧
    validate_phone phoneIntl = true ∧
    create_appointment_request exStorePending exDataBadPhone =
      (exStorePending, ToolReply.invalidPhone) := by
  refine ⟨?_, ?_, by decide, by decide, by decide⟩
  · intro phone
    simp [validate_phone]
  · intro email
    simp [validate_email]

theorem C9_contact_validation_witness :
    validate_phone phoneIntl = true ↔
      10 ≤ (phoneIntl.toList.filter (fun c => c.isDigit)).length :=
  C9_contact_validation.1 phoneIntl

/-- C9 counterexample: the code accepts "a.b@cd" (an '@' and a '.', the '.'
before the '@') although the claim's rule — a '.' after the '@' — rejects
it. -/
theorem C9_counterexample_email_dot :
    validate_email emailDotBefore = true ∧ ¬ emailSpecOk emailDotBefore := by
  decide

end DentBot.Appts

namespace DentBot.Rooms

/-- Calendar date as parsed from a "YYYY-MM-DD" string by
`datetime.strptime(s, "%Y-%m-%d")`; comparing the resulting datetimes is
exactly the lexicographic order on (year, month, day). -/
structure CalDate where
  y : Nat
  m : Nat
  d : Nat
deriving DecidableEq

/-- Chronological strict order on parsed dates (Python `datetime <`). -/
def dateLt (a b : CalDate) : Bool :=
  decide (a.y < b.y) ||
    (a.y == b.y &&
      (decide (a.m < b.m) || (a.m == b.m && decide (a.d < b.d))))

/-- Mirror of `_dates_overlap` (dent_bot/tools.py):
`d1_in < d2_out and d2_in < d1_out`. -/
def dates_overlap (check_in1 check_out1 check_in2 check_out2 : CalDate) : Bool :=
  dateLt check_in1 check_out2 && dateLt check_in2 check_out1

/-- Row of the `rooms` table.  `price_per_night` is REAL in the schema but is
only ever displayed, never computed with; it is modelled as a numeral. -/
structure Room where
  id : Nat
  name : String
  capacity : Nat
  price_per_night : Nat
  status : String
deriving DecidableEq

/-- Row of the `reservations` table, with the two date strings parsed. -/
structure Reservation where
  id : Nat
  room_id : Nat
  full_name : String
  check_in : CalDate
  check_out : CalDate
  guests : Nat
  phone : String
  email : String
  notes : Option String
deriving DecidableEq

/-- Mirror of adapter `get_room`: `SELECT * FROM rooms WHERE id = ?`. -/
def get_room : List Room → Nat → Option Room
  | [], _ => none
  | r :: rest, i => if r.id == i then some r else get_room rest i

/-- Mirror of adapter `list_reservations_for_room`:
`SELECT * FROM reservations WHERE room_id = ?` (the `ORDER BY id DESC` only
permutes the rows, which the callers merely iterate over). -/
def list_reservations_for_room (resvs : List Reservation) (room_id : Nat) :
    List Reservation :=
  resvs.filter (fun r => r.room_id == room_id)

/-- AUTOINCREMENT id for the next reservation row. -/
def next_resv_id (resvs : List Reservation) : Nat :=
  (resvs.map (fun r => r.id)).foldr max 0 + 1

/-- Mirror of `_validate_phone` (dent_bot/tools.py, same body as the dentbot
copy). -/
def validate_phone (phone : String) : Bool :=
  decide (10 ≤ (phone.toList.filter (fun c => c.isDigit)).length)

/-- Mirror of `_validate_email` (dent_bot/tools.py). -/
def validate_email (email : String) : Bool :=
  email.toList.contains '@' && email.toList.contains '.'

/-- Python `str.strip()`: drop leading and trailing whitespace. -/
def pystrip (s : String) : String :=
  String.mk
    (((s.data.dropWhile (fun c => c.isWhitespace)).reverse.dropWhile
        (fun c => c.isWhitespace)).reverse)

/-- The distinct messages the `create_reservation` tool returns.  (The two
date-format errors cannot arise here because the `CalDate` arguments stand
for already-parsed date strings.) -/
inductive ResvReply where
  | invalidPhone
  | invalidEmail
  | missingPhone
  | missingEmail
  | roomNotFound
  | roomNotAvailable
  | capacityExceeded
  /-- "Oda istenilen tarihler için zaten rezerve edilmiş" -/
  | datesConflict
  | createdOk (ref : Nat)
deriving DecidableEq

/-- Mirror of the `create_reservation` tool (dent_bot/tools.py): format,
phone, email and presence checks, room existence/status/capacity checks, the
overlap scan over the room's reservations, then the insert.  Note there is no
comparison between `check_in` and `check_out` anywhere. -/
def create_reservation (rooms : List Room) (resvs : List Reservation)
    (room_id : Nat) (full_name : String) (check_in check_out : CalDate)
    (guests : Nat) (phone email : String) (notes : Option String) :
    List Reservation × ResvReply :=
  if ¬ validate_phone phone then (resvs, ResvReply.invalidPhone)
  else if ¬ validate_email email then (resvs, ResvReply.invalidEmail)
  else if pystrip phone == "" then (resvs, ResvReply.missingPhone)
  else if pystrip email == "" then (resvs, ResvReply.missingEmail)
  else
    match get_room rooms room_id with
    | none => (resvs, ResvReply.roomNotFound)
    | some room =>
      if room.status != "available" then (resvs, ResvReply.roomNotAvailable)
      else if room.capacity < guests then (resvs, ResvReply.capacityExceeded)
      else if (list_reservations_for_room resvs room_id).any
          (fun r => dates_overlap check_in check_out r.check_in r.check_out)
        then (resvs, ResvReply.datesConflict)
      else
        (resvs ++ [⟨next_resv_id resvs, room_id, full_name, check_in,
            check_out, guests, pystrip phone, pystrip email, notes⟩],
          ResvReply.createdOk (next_resv_id resvs))

def room1 : Room := ⟨1, "Standart Oda", 2, 100, "available"⟩

def resvDec1to5 : Reservation :=
  ⟨1, 1, "First User", ⟨2025, 12, 1⟩, ⟨2025, 12, 5⟩, 2, "+1234567890",
    "first@example.com", none⟩

def guestName : String := "Second User"

def guestPhone : String := "+1 (555) 123-4567"

def guestEmail : String := "second@example.com"

def dec4 : CalDate := ⟨2025, 12, 4⟩

def dec5 : CalDate := ⟨2025, 12, 5⟩

def dec6 : CalDate := ⟨2025, 12, 6⟩

def dec7 : CalDate := ⟨2025, 12, 7⟩

def dec10 : CalDate := ⟨2025, 12, 10⟩

/-- C7: two date ranges conflict iff `in1 < out2 ∧ in2 < out1`; a range
ending the very day another begins never conflicts (either way round), the
relation is symmetric, and on the spec scenario — existing booking
Dec 1-5 — a candidate Dec 5-7 is accepted and persisted while a candidate
Dec 4-6 is rejected as a conflict with nothing persisted. -/
theorem C7_range_overlap_semantics :
    (∀ i1 o1 i2 o2 : CalDate, dates_overlap i1 o1 i2 o2 = true ↔
      (dateLt i1 o2 = true ∧ dateLt i2 o1 = true)) ∧
    (∀ i1 i2 o2 : CalDate, dates_overlap i1 i2 i2 o2 = false) ∧
    (∀ i1 o1 o2 : CalDate, dates_overlap i1 o1 o1 o2 = false) ∧
    (∀ i1 o1 i2 o2 : CalDate,
      dates_overlap i1 o1 i2 o2 = dates_overlap i2 o2 i1 o1) ∧
    create_reservation [room1] [resvDec1to5] 1 guestName dec5 dec7 2
        guestPhone guestEmail none =
      ([resvDec1to5, ⟨2, 1, guestName, dec5, dec7, 2, pystrip guestPhone,
          pystrip guestEmail, none⟩],
        ResvReply.createdOk 2) ∧
    create_reservation [room1] [resvDec1to5] 1 guestName dec4 dec6 2
        guestPhone guestEmail none =
      ([resvDec1to5], ResvReply.datesConflict) := by
  refine ⟨?_, ?_, ?_, ?_, by decide, by decide⟩
  · intro i1 o1 i2 o2
    simp [dates_overlap]
  · intro i1 i2 o2
    simp [dates_overlap, dateLt]
  · intro i1 o1 o2
    simp [dates_overlap, dateLt]
  · intro i1 o1 i2 o2
    simp [dates_overlap, Bool.and_comm]

theorem C7_range_overlap_semantics_witness :
    dates_overlap ⟨2025, 12, 1⟩ dec5 dec5 dec7 = false :=
  C7_range_overlap_semantics.2.1 ⟨2025, 12, 1⟩ dec5 dec7

/-- C10 (amended): `create_reservation` never compares `check_in` with
`check_out`: whenever the checks the code does perform (phone, email,
non-blank contact, room exists and is available, capacity, no overlap with
the room's reservations) pass, the reservation is accepted and persisted —
with no hypothesis whatsoever on the order of the two dates. -/
theorem C10_no_date_order_validation (rooms : List Room)
    (resvs : List Reservation) (room_id : Nat) (full_name : String)
    (check_in check_out : CalDate) (guests : Nat) (phone email : String)
    (notes : Option String) (room : Room)
    (hphone : validate_phone phone = true)
    (hemail : validate_email email = true)
    (hpstrip : (pystrip phone == "") = false)
    (hestrip : (pystrip email == "") = false)
    (hroom : get_room rooms room_id = some room)
    (hstatus : room.status = "available")
    (hcap : ¬ room.capacity < guests)
    (hover : (list_reservations_for_room resvs room_id).any
      (fun r => dates_overlap check_in check_out r.check_in r.check_out) =
        false) :
    create_reservation rooms resvs room_id full_name check_in check_out
        guests phone email notes =
      (resvs ++ [⟨next_resv_id resvs, room_id, full_name, check_in, check_out,
          guests, pystrip phone, pystrip email, notes⟩],
        ResvReply.createdOk (next_resv_id resvs)) := by
  unfold create_reservation
  rw [hphone, hemail, hpstrip, hestrip, hroom]
  simp [hstatus, hcap, hover]

theorem C10_no_date_order_validation_witness :
    dateLt dec5 dec10 = true ∧
    create_reservation [room1] [] 1 guestName dec10 dec5 2 guestPhone
        guestEmail none =
      ([⟨1, 1, guestName, dec10, dec5, 2, pystrip guestPhone, pystrip guestEmail,
          none⟩],
        ResvReply.createdOk 1) :=
  ⟨by decide,
    C10_no_date_order_validation [room1] [] 1 guestName dec10 dec5 2
      guestPhone guestEmail none room1 (by decide) (by decide) (by decide)
      (by decide) (by decide) (by decide) (by decide) (by decide)⟩

/-- C10 counterexample: a range-style create whose check-out (Dec 5) is
before its check-in (Dec 10) passes validation and IS persisted — the
claimed ValidationError rejection does not exist. -/
theorem C10_counterexample_reversed_range :
    dateLt dec5 dec10 = true ∧
    (create_reservation [room1] [] 1 guestName dec10 dec5 2 guestPhone
        guestEmail none).2 = ResvReply.createdOk 1 ∧
    (create_reservation [room1] [] 1 guestName dec10 dec5 2 guestPhone
        guestEmail none).1 ≠ [] := by
  decide

end DentBot.Rooms
